import Mathlib

/-!
Shallow embedding of `scripts/calculate-cost.py`: a standalone monthly cost
calculator for Minecraft server infrastructure, taking a player capacity and
producing a resource configuration and a cost breakdown.

Modelling conventions:
* Python ints that are provably nonnegative in every reachable state are `ℕ`;
  the CLI-parsed value is `ℤ` (Python `int()` can yield negatives).
* Python float arithmetic on the pricing constants is modelled exactly over `ℚ`
  (the decimal literals are taken at face value).  `math.ceil(a / b)` for
  nonnegative integers `a`, `b > 0` is exact ceiling division: for the divisors
  100, 50 and 5000 and capacities up to 50000 the float quotient is never
  within 1e-2 of an integer unless it is one exactly, so the float `ceil`
  agrees with the rational `ceil`.
* `min([])` raises `ValueError` in Python and a missing dict key raises
  `KeyError`; both are modelled by `Option`, with `none` for the raised
  exception escaping `calculate_resources`.
* `round(x, 2)` is modelled as rounding `x·100` to an integer and dividing by
  100.  (Python rounds ties to even on binary floats; no property proved here
  depends on tie behaviour.)
-/

/-- Source: `math.ceil(a / b)` for nonnegative integers, as exact ceiling division. -/
def ceilDiv (a b : ℕ) : ℕ := (a + b - 1) / b

/-- AWS pricing constant `ECS_CPU_PRICE_PER_VCPU_HOUR = 0.04048`. -/
def ECS_CPU_PRICE_PER_VCPU_HOUR : ℚ := 0.04048

/-- AWS pricing constant `ECS_MEMORY_PRICE_PER_GB_HOUR = 0.004445`. -/
def ECS_MEMORY_PRICE_PER_GB_HOUR : ℚ := 0.004445

/-- Source: `HOURS_PER_MONTH = 730`. -/
def HOURS_PER_MONTH : ℚ := 730

/-- The `REDIS_HOURLY_PRICING` dict, as an association list. -/
def REDIS_HOURLY_PRICING : List (String × ℚ) :=
  [("cache.t3.micro", 0.017),
   ("cache.t3.small", 0.034),
   ("cache.t3.medium", 0.068),
   ("cache.t3.large", 0.136),
   ("cache.r6g.large", 0.126),
   ("cache.r6g.xlarge", 0.252)]

/-- Source: `EFS_STORAGE_PRICE_PER_GB_MONTH = 0.30`. -/
def EFS_STORAGE_PRICE_PER_GB_MONTH : ℚ := 0.30

/-- Source: `EFS_BASELINE_STORAGE_GB = 100`. -/
def EFS_BASELINE_STORAGE_GB : ℚ := 100

/-- Source: `NAT_GATEWAY_PRICE_PER_MONTH = 32.40`. -/
def NAT_GATEWAY_PRICE_PER_MONTH : ℚ := 32.40

/-- Source: `ALB_BASE_PRICE_PER_MONTH = 16.20`. -/
def ALB_BASE_PRICE_PER_MONTH : ℚ := 16.20

/-- Source: `GLOBAL_ACCELERATOR_PRICE_PER_MONTH = 7.20`. -/
def GLOBAL_ACCELERATOR_PRICE_PER_MONTH : ℚ := 7.20

/-- Source: `CPU_OPTIONS = [256, 512, 1024, 2048, 4096, 8192, 16384]`. -/
def CPU_OPTIONS : List ℕ := [256, 512, 1024, 2048, 4096, 8192, 16384]

/-- The `CPU_MEMORY_MIN` dict, as an association list keyed by CPU units. -/
def CPU_MEMORY_MIN : List (ℕ × ℕ) :=
  [(256, 512), (512, 1024), (1024, 2048), (2048, 4096),
   (4096, 8192), (8192, 16384), (16384, 32768)]

/-- The `CPU_MEMORY_MAX` dict, as an association list keyed by CPU units. -/
def CPU_MEMORY_MAX : List (ℕ × ℕ) :=
  [(256, 2048), (512, 4096), (1024, 8192), (2048, 16384),
   (4096, 30720), (8192, 30720), (16384, 61440)]

/-- The result dict of `calculate_resources`, as a record. -/
structure Resources where
  cpu_vcpu : ℕ
  cpu_units : ℕ
  memory_gb : ℚ
  memory_mb : ℕ
  desired_count : ℕ
  redis_node_type : String
  redis_replica_count : ℕ
  efs_performance_mode : String
  nat_gateway_count : ℕ
  enable_global_accelerator : Bool
deriving DecidableEq

/-- Python `min` over a nonempty list `x :: xs`. -/
def pyMin (x : ℕ) (xs : List ℕ) : ℕ := xs.foldl min x

/-- Source: `cpu_vcpu = max(1, math.ceil(player_capacity / 100))`. -/
def cpu_vcpu_of (player_capacity : ℕ) : ℕ := max 1 (ceilDiv player_capacity 100)

/-- Source: `cpu_units = cpu_vcpu * 1024`. -/
def cpu_units_of (player_capacity : ℕ) : ℕ := cpu_vcpu_of player_capacity * 1024

/-- Source: `[cpu for cpu in CPU_OPTIONS if cpu >= cpu_units]`. -/
def cpu_candidates (player_capacity : ℕ) : List ℕ :=
  CPU_OPTIONS.filter (fun cpu => cpu_units_of player_capacity ≤ cpu)

/-- Source: `memory_gb = max(2, math.ceil(player_capacity / 50))` (pre-clamp). -/
def requested_memory_gb (player_capacity : ℕ) : ℕ := max 2 (ceilDiv player_capacity 50)

/-- Source: `memory_mb = memory_gb * 1024` (pre-clamp). -/
def requested_memory_mb (player_capacity : ℕ) : ℕ := requested_memory_gb player_capacity * 1024

/-- The Redis instance type if/elif chain of `calculate_resources`. -/
def redis_node_type_of (player_capacity : ℕ) : String :=
  if player_capacity ≤ 500 then "cache.t3.micro"
  else if player_capacity ≤ 2000 then "cache.t3.small"
  else if player_capacity ≤ 5000 then "cache.t3.medium"
  else if player_capacity ≤ 10000 then "cache.t3.large"
  else if player_capacity ≤ 20000 then "cache.r6g.large"
  else "cache.r6g.xlarge"

/-- Source: `redis_replica_count = max(0, math.ceil(player_capacity / 5000) - 1)`.
Over `ℕ` the truncated subtraction coincides with Python's `max(0, n - 1)`
since `math.ceil` of a nonnegative quotient is nonnegative. -/
def redis_replica_count_of (player_capacity : ℕ) : ℕ :=
  max 0 (ceilDiv player_capacity 5000 - 1)

/-- Source: `efs_performance_mode = "maxIO" if player_capacity >= 5000 else "generalPurpose"`. -/
def efs_performance_mode_of (player_capacity : ℕ) : String :=
  if player_capacity ≥ 5000 then "maxIO" else "generalPurpose"

/-- Source: `nat_gateway_count = 2 if player_capacity >= 10000 else 1`. -/
def nat_gateway_count_of (player_capacity : ℕ) : ℕ :=
  if player_capacity ≥ 10000 then 2 else 1

/-- Source: `enable_global_accelerator = player_capacity >= 1000`. -/
def enable_global_accelerator_of (player_capacity : ℕ) : Bool :=
  player_capacity ≥ 1000

/-- The ECS desired count branch of `calculate_resources`. -/
def desired_count_of (player_capacity : ℕ) : ℕ :=
  if player_capacity < 5000 then 1 else max 2 (ceilDiv player_capacity 5000)

/-- Source: `calculate_resources(player_capacity)`.  Returns `none` exactly when the
Python code raises: `min` of the empty candidate list (`ValueError`), or a
missing key in the memory tables (`KeyError`, in fact unreachable). -/
def calculate_resources (player_capacity : ℕ) : Option Resources :=
  match cpu_candidates player_capacity with
  | [] => none
  | c :: cs =>
    match CPU_MEMORY_MIN.lookup (pyMin c cs), CPU_MEMORY_MAX.lookup (pyMin c cs) with
    | some valid_memory_min, some valid_memory_max =>
      let memory_mb : ℕ :=
        max valid_memory_min (min (requested_memory_mb player_capacity) valid_memory_max)
      some
        { cpu_vcpu := cpu_vcpu_of player_capacity
          cpu_units := pyMin c cs
          memory_mb := memory_mb
          memory_gb := (memory_mb : ℚ) / 1024
          desired_count := desired_count_of player_capacity
          redis_node_type := redis_node_type_of player_capacity
          redis_replica_count := redis_replica_count_of player_capacity
          efs_performance_mode := efs_performance_mode_of player_capacity
          nat_gateway_count := nat_gateway_count_of player_capacity
          enable_global_accelerator := enable_global_accelerator_of player_capacity }
    | _, _ => none

/-- The result dict of `calculate_costs`, as a record (all values rounded). -/
structure Costs where
  ecs : ℚ
  redis : ℚ
  efs : ℚ
  nat : ℚ
  alb : ℚ
  accelerator : ℚ
  total : ℚ
deriving DecidableEq

/-- Python `round(x, 2)` modelled over `ℚ`. -/
def round2 (q : ℚ) : ℚ := ((round (q * 100) : ℤ) : ℚ) / 100

/-- Unrounded ECS cost:
`(cpu_vcpu * ECS_CPU_PRICE + memory_gb * ECS_MEM_PRICE) * HOURS * desired_count`. -/
def ecs_cost (r : Resources) : ℚ :=
  ((r.cpu_vcpu : ℚ) * ECS_CPU_PRICE_PER_VCPU_HOUR
    + r.memory_gb * ECS_MEMORY_PRICE_PER_GB_HOUR) * HOURS_PER_MONTH * (r.desired_count : ℚ)

/-- Source: `REDIS_HOURLY_PRICING.get(resources["redis_node_type"], 0.017)`. -/
def redis_hourly (r : Resources) : ℚ :=
  (REDIS_HOURLY_PRICING.lookup r.redis_node_type).getD 0.017

/-- Unrounded Redis cost: `redis_hourly * HOURS * (replica_count + 1)`. -/
def redis_cost (r : Resources) : ℚ :=
  redis_hourly r * HOURS_PER_MONTH * ((r.redis_replica_count : ℚ) + 1)

/-- Unrounded EFS cost: `EFS_BASELINE_STORAGE_GB * EFS_STORAGE_PRICE_PER_GB_MONTH`. -/
def efs_cost : ℚ := EFS_BASELINE_STORAGE_GB * EFS_STORAGE_PRICE_PER_GB_MONTH

/-- Unrounded NAT gateway cost. -/
def nat_cost (r : Resources) : ℚ := (r.nat_gateway_count : ℚ) * NAT_GATEWAY_PRICE_PER_MONTH

/-- Unrounded ALB cost. -/
def alb_cost : ℚ := ALB_BASE_PRICE_PER_MONTH

/-- Unrounded Global Accelerator cost. -/
def accelerator_cost (r : Resources) : ℚ :=
  if r.enable_global_accelerator then GLOBAL_ACCELERATOR_PRICE_PER_MONTH else 0

/-- Unrounded total: the sum of the six unrounded line items. -/
def total_cost (r : Resources) : ℚ :=
  ecs_cost r + redis_cost r + efs_cost + nat_cost r + alb_cost + accelerator_cost r

/-- Source: `calculate_costs(resources)`: each line item and the total rounded to 2
decimal places, the total computed from the unrounded items. -/
def calculate_costs (r : Resources) : Costs :=
  { ecs := round2 (ecs_cost r)
    redis := round2 (redis_cost r)
    efs := round2 efs_cost
    nat := round2 (nat_cost r)
    alb := round2 alb_cost
    accelerator := round2 (accelerator_cost r)
    total := round2 (total_cost r) }

/-- Statement abbreviation: the CPU sizing facts claimed for a returned
configuration — logical vCPU formula, discretized units drawn from
`CPU_OPTIONS`, and minimality of the chosen option. -/
def cpuSizingOK (cap : ℕ) (r : Resources) : Prop :=
  r.cpu_vcpu = max 1 (ceilDiv cap 100) ∧
  r.cpu_units ∈ CPU_OPTIONS ∧
  r.cpu_vcpu * 1024 ≤ r.cpu_units ∧
  ∀ y ∈ CPU_OPTIONS, r.cpu_vcpu * 1024 ≤ y → r.cpu_units ≤ y

/-- Statement abbreviation: the memory clamping facts claimed for a returned
configuration — the clamp formula and the resulting closed-interval bounds. -/
def memoryClampOK (cap : ℕ) (r : Resources) : Prop :=
  ∃ lo hi, CPU_MEMORY_MIN.lookup r.cpu_units = some lo ∧
    CPU_MEMORY_MAX.lookup r.cpu_units = some hi ∧
    r.memory_mb = max lo (min (max 2 (ceilDiv cap 50) * 1024) hi) ∧
    lo ≤ r.memory_mb ∧ r.memory_mb ≤ hi ∧
    r.memory_gb = (r.memory_mb : ℚ) / 1024

/-- Statement abbreviation: the five fields claimed to be monotone in
capacity, compared pointwise. -/
def monotoneFields (ra rb : Resources) : Prop :=
  ra.cpu_units ≤ rb.cpu_units ∧ ra.memory_mb ≤ rb.memory_mb ∧
  ra.desired_count ≤ rb.desired_count ∧ ra.nat_gateway_count ≤ rb.nat_gateway_count ∧
  ra.redis_replica_count ≤ rb.redis_replica_count

/-- Statement abbreviation: the cost-breakdown facts claimed for a
configuration — non-negative unrounded line items, each output field the
2-decimal rounding of its unrounded item, the total rounded from the sum of
the unrounded items, and non-negative outputs. -/
def costsOK (r : Resources) : Prop :=
  (0 ≤ ecs_cost r ∧ 0 ≤ redis_cost r ∧ 0 ≤ efs_cost ∧ 0 ≤ nat_cost r ∧
    0 ≤ alb_cost ∧ 0 ≤ accelerator_cost r) ∧
  ((calculate_costs r).ecs = round2 (ecs_cost r) ∧
    (calculate_costs r).redis = round2 (redis_cost r) ∧
    (calculate_costs r).efs = round2 efs_cost ∧
    (calculate_costs r).nat = round2 (nat_cost r) ∧
    (calculate_costs r).alb = round2 alb_cost ∧
    (calculate_costs r).accelerator = round2 (accelerator_cost r) ∧
    (calculate_costs r).total
      = round2 (ecs_cost r + redis_cost r + efs_cost + nat_cost r + alb_cost + accelerator_cost r)) ∧
  (0 ≤ (calculate_costs r).ecs ∧ 0 ≤ (calculate_costs r).redis ∧ 0 ≤ (calculate_costs r).efs ∧
    0 ≤ (calculate_costs r).nat ∧ 0 ≤ (calculate_costs r).alb ∧ 0 ≤ (calculate_costs r).accelerator)

/-- The configuration `calculate_resources` produces for capacity 100,
used to instantiate hypotheses of the claim theorems at a concrete input. -/
def res100 : Resources :=
  { cpu_vcpu := 1, cpu_units := 1024, memory_gb := 2, memory_mb := 2048,
    desired_count := 1, redis_node_type := "cache.t3.micro", redis_replica_count := 0,
    efs_performance_mode := "generalPurpose", nat_gateway_count := 1,
    enable_global_accelerator := false }

/-- The configuration `calculate_resources` produces for capacity 500,
matching the worked example in the specification. -/
def res500 : Resources :=
  { cpu_vcpu := 5, cpu_units := 8192, memory_gb := 16, memory_mb := 16384,
    desired_count := 1, redis_node_type := "cache.t3.micro", redis_replica_count := 0,
    efs_performance_mode := "generalPurpose", nat_gateway_count := 1,
    enable_global_accelerator := false }

/-- Digit-string to number; `none` if empty or any character is a non-digit. -/
def digitsToNat (l : List Char) : Option ℕ :=
  if l ≠ [] ∧ l.all (fun c => c.isDigit) then
    some (l.foldl (fun a c => a * 10 + (c.toNat - 48)) 0)
  else none

/-- Model of Python `int(s)` on CLI arguments: an optional sign followed by
digits; anything else raises `ValueError`, modelled as `none`.  (Python also
strips surrounding whitespace and allows underscores between digits; the
arguments relevant here contain neither.) -/
def pythonInt (s : String) : Option ℤ :=
  match s.toList with
  | '-' :: rest => (digitsToNat rest).map (fun n => -(n : ℤ))
  | '+' :: rest => (digitsToNat rest).map (fun n => (n : ℤ))
  | l => (digitsToNat l).map (fun n => (n : ℤ))

/-- The observable outcome of running `main` with a given `sys.argv`. -/
inductive CLIOutcome where
  | usage_error : CLIOutcome
  | invalid_error : String → CLIOutcome
  | range_error : ℤ → CLIOutcome
  | crash : ℕ → CLIOutcome
  | report : ℕ → Resources → Costs → Bool → CLIOutcome
deriving DecidableEq

/-- Source: `main()`, driven by `sys.argv` (`argv[0]` is the program name).
`usage_error`, `invalid_error` and `range_error` are the three handled error
paths, each printing a message and calling `sys.exit(1)` before any
calculation; `crash` is an uncaught exception escaping `calculate_resources`
(Python exits with code 1 and a traceback, no report); `report` carries the
printed data and the `--json` flag, exiting with code 0. -/
def cli_main (argv : List String) : CLIOutcome :=
  match argv with
  | [] => .usage_error
  | [_] => .usage_error
  | _ :: arg :: _ =>
    match pythonInt arg with
    | none => .invalid_error arg
    | some n =>
      if n < 100 ∨ 50000 < n then .range_error n
      else
        match calculate_resources n.toNat with
        | none => .crash n.toNat
        | some r => .report n.toNat r (calculate_costs r) (argv.contains ("--json"))

/-- Process exit code of an outcome. -/
def exitCode : CLIOutcome → ℕ
  | .report _ _ _ _ => 0
  | _ => 1

/-- Whether the outcome printed a report or JSON document. -/
def printsReport : CLIOutcome → Bool
  | .report _ _ _ _ => true
  | _ => false

/-- Python `min` of a nonempty list is an element of the list. -/
theorem pyMin_mem (x : ℕ) (xs : List ℕ) : pyMin x xs ∈ x :: xs := by
  induction xs generalizing x with
  | nil => simp [pyMin]
  | cons c cs ih =>
    have h := ih (min x c)
    show pyMin (min x c) cs ∈ x :: c :: cs
    rcases List.mem_cons.mp h with h1 | h1
    · rcases min_choice x c with h2 | h2
      · rw [h1, h2]; exact List.mem_cons_self _ _
      · rw [h1, h2]; exact List.mem_cons_of_mem _ (List.mem_cons_self _ _)
    · exact List.mem_cons_of_mem _ (List.mem_cons_of_mem _ h1)

/-- Python `min` of a nonempty list is at most the first element. -/
theorem pyMin_le_self (x : ℕ) (xs : List ℕ) : pyMin x xs ≤ x := by
  induction xs generalizing x with
  | nil => simp [pyMin]
  | cons c cs ih =>
    calc pyMin (min x c) cs ≤ min x c := ih (min x c)
      _ ≤ x := min_le_left _ _

/-- Python `min` of a nonempty list is a lower bound of the list. -/
theorem pyMin_le (x : ℕ) (xs : List ℕ) (y : ℕ) (hy : y ∈ x :: xs) : pyMin x xs ≤ y := by
  induction xs generalizing x with
  | nil => simp at hy; simp [pyMin, hy]
  | cons c cs ih =>
    show pyMin (min x c) cs ≤ y
    rcases List.mem_cons.mp hy with h1 | h1
    · calc pyMin (min x c) cs ≤ min x c := pyMin_le_self (min x c) cs
        _ ≤ x := min_le_left _ _
        _ = y := h1.symm
    · rcases List.mem_cons.mp h1 with h2 | h2
      · calc pyMin (min x c) cs ≤ min x c := pyMin_le_self (min x c) cs
          _ ≤ c := min_le_right _ _
          _ = y := h2.symm
      · exact ih (min x c) (List.mem_cons.mpr (Or.inr h2))

/-- The candidate CPU list is empty exactly for capacities above 1600:
there, `ceil(capacity/100) ≥ 17` vCPU need at least 17408 units, which exceeds
every member of `CPU_OPTIONS`. -/
theorem cpu_candidates_nil_iff (cap : ℕ) : cpu_candidates cap = [] ↔ 1600 < cap := by
  constructor
  · intro h
    by_contra hc
    push_neg at hc
    have hle : cpu_units_of cap ≤ 16384 := by
      unfold cpu_units_of cpu_vcpu_of ceilDiv
      have : (cap + 99) / 100 ≤ 16 := by omega
      omega
    have hmem : (16384 : ℕ) ∈ cpu_candidates cap := by
      unfold cpu_candidates
      rw [List.mem_filter]
      exact ⟨by decide, by simpa using hle⟩
    rw [h] at hmem
    simp at hmem
  · intro h
    unfold cpu_candidates
    rw [List.filter_eq_nil_iff]
    intro a ha
    have h17 : 17 ≤ ceilDiv cap 100 := by unfold ceilDiv; omega
    have hu : 17408 ≤ cpu_units_of cap := by
      unfold cpu_units_of cpu_vcpu_of
      have : 17 ≤ max 1 (ceilDiv cap 100) := le_trans h17 (le_max_right _ _)
      omega
    fin_cases ha <;> simp <;> omega

/-- The discretized CPU value is a member of `CPU_OPTIONS` and at least the
raw unit requirement. -/
theorem rounded_mem (cap : ℕ) (c : ℕ) (cs : List ℕ)
    (hf : cpu_candidates cap = c :: cs) :
    pyMin c cs ∈ CPU_OPTIONS ∧ cpu_units_of cap ≤ pyMin c cs := by
  have hm : pyMin c cs ∈ cpu_candidates cap := by rw [hf]; exact pyMin_mem c cs
  unfold cpu_candidates at hm
  rw [List.mem_filter] at hm
  exact ⟨hm.1, by simpa using hm.2⟩

/-- The discretized CPU value is the least member of `CPU_OPTIONS` meeting the
raw unit requirement. -/
theorem rounded_min (cap : ℕ) (c : ℕ) (cs : List ℕ)
    (hf : cpu_candidates cap = c :: cs) :
    ∀ y ∈ CPU_OPTIONS, cpu_units_of cap ≤ y → pyMin c cs ≤ y := by
  intro y hy hle
  have : y ∈ cpu_candidates cap := by
    unfold cpu_candidates
    rw [List.mem_filter]
    exact ⟨hy, by simpa using hle⟩
  rw [hf] at this
  exact pyMin_le c cs y this

/-- Every CPU option has an entry in both memory tables, with min ≤ max. -/
theorem tables_isSome : ∀ c ∈ CPU_OPTIONS,
    (CPU_MEMORY_MIN.lookup c).isSome ∧ (CPU_MEMORY_MAX.lookup c).isSome ∧
    (CPU_MEMORY_MIN.lookup c).getD 0 ≤ (CPU_MEMORY_MAX.lookup c).getD 0 := by decide

/-- The memory tables are monotone along the CPU option order. -/
theorem tables_mono : ∀ c1 ∈ CPU_OPTIONS, ∀ c2 ∈ CPU_OPTIONS, c1 ≤ c2 →
    (CPU_MEMORY_MIN.lookup c1).getD 0 ≤ (CPU_MEMORY_MIN.lookup c2).getD 0 ∧
    (CPU_MEMORY_MAX.lookup c1).getD 0 ≤ (CPU_MEMORY_MAX.lookup c2).getD 0 := by decide

/-- Above capacity 1600 `calculate_resources` fails (the `ValueError`). -/
theorem calc_res_none (cap : ℕ) (h : 1600 < cap) : calculate_resources cap = none := by
  have hf := (cpu_candidates_nil_iff cap).mpr h
  simp [calculate_resources, hf]

/-- Field-by-field description of any configuration `calculate_resources`
actually returns. -/
theorem calc_res_shape (cap : ℕ) (r : Resources) (h : calculate_resources cap = some r) :
    r.cpu_vcpu = cpu_vcpu_of cap ∧
    r.cpu_units ∈ CPU_OPTIONS ∧
    cpu_units_of cap ≤ r.cpu_units ∧
    (∀ y ∈ CPU_OPTIONS, cpu_units_of cap ≤ y → r.cpu_units ≤ y) ∧
    r.memory_mb = max ((CPU_MEMORY_MIN.lookup r.cpu_units).getD 0)
      (min (requested_memory_mb cap) ((CPU_MEMORY_MAX.lookup r.cpu_units).getD 0)) ∧
    (CPU_MEMORY_MIN.lookup r.cpu_units).isSome ∧
    (CPU_MEMORY_MAX.lookup r.cpu_units).isSome ∧
    r.memory_gb = (r.memory_mb : ℚ) / 1024 ∧
    r.desired_count = desired_count_of cap ∧
    r.redis_node_type = redis_node_type_of cap ∧
    r.redis_replica_count = redis_replica_count_of cap ∧
    r.efs_performance_mode = efs_performance_mode_of cap ∧
    r.nat_gateway_count = nat_gateway_count_of cap ∧
    r.enable_global_accelerator = enable_global_accelerator_of cap := by
  cases hf : cpu_candidates cap with
  | nil => simp [calculate_resources, hf] at h
  | cons c cs =>
    obtain ⟨hmem, hle⟩ := rounded_mem cap c cs hf
    obtain ⟨h1s, h2s, _⟩ := tables_isSome _ hmem
    obtain ⟨lo, hlo⟩ := Option.isSome_iff_exists.mp h1s
    obtain ⟨hi, hhi⟩ := Option.isSome_iff_exists.mp h2s
    simp only [calculate_resources, hf, hlo, hhi, Option.some.injEq] at h
    subst h
    refine ⟨rfl, hmem, hle, rounded_min cap c cs hf, ?_, ?_, ?_, rfl, rfl, rfl, rfl, rfl, rfl, rfl⟩
    · simp [hlo, hhi, requested_memory_mb, requested_memory_gb]
    · simp [hlo]
    · simp [hhi]

/-- For capacities at most 1600 `calculate_resources` succeeds. -/
theorem calc_res_returns (cap : ℕ) (h : cap ≤ 1600) : (calculate_resources cap).isSome := by
  cases hf : cpu_candidates cap with
  | nil =>
    have := (cpu_candidates_nil_iff cap).mp hf
    omega
  | cons c cs =>
    obtain ⟨hmem, _⟩ := rounded_mem cap c cs hf
    obtain ⟨h1s, h2s, _⟩ := tables_isSome _ hmem
    obtain ⟨lo, hlo⟩ := Option.isSome_iff_exists.mp h1s
    obtain ⟨hi, hhi⟩ := Option.isSome_iff_exists.mp h2s
    simp only [calculate_resources, hf, hlo, hhi]
    simp

/-- Closed form of `calculate_resources` once the candidate list and the two
table lookups are known. -/
theorem calc_res_eval (cap : ℕ) (c : ℕ) (cs : List ℕ) (lo hi : ℕ)
    (hf : cpu_candidates cap = c :: cs)
    (hlo : CPU_MEMORY_MIN.lookup (pyMin c cs) = some lo)
    (hhi : CPU_MEMORY_MAX.lookup (pyMin c cs) = some hi) :
    calculate_resources cap = some
      { cpu_vcpu := cpu_vcpu_of cap
        cpu_units := pyMin c cs
        memory_mb := max lo (min (requested_memory_mb cap) hi)
        memory_gb := ((max lo (min (requested_memory_mb cap) hi) : ℕ) : ℚ) / 1024
        desired_count := desired_count_of cap
        redis_node_type := redis_node_type_of cap
        redis_replica_count := redis_replica_count_of cap
        efs_performance_mode := efs_performance_mode_of cap
        nat_gateway_count := nat_gateway_count_of cap
        enable_global_accelerator := enable_global_accelerator_of cap } := by
  simp [calculate_resources, hf, hlo, hhi]

/-- Concrete run: capacity 100 yields `res100`. -/
theorem calc_res_100 : calculate_resources 100 = some res100 := by
  have h := calc_res_eval 100 1024 [2048, 4096, 8192, 16384] 2048 8192
    (by decide) (by decide) (by decide)
  rw [h]
  have h1 : pyMin 1024 [2048, 4096, 8192, 16384] = 1024 := by decide
  have h2 : max 2048 (min (requested_memory_mb 100) 8192) = 2048 := by decide
  have h3 : cpu_vcpu_of 100 = 1 := by decide
  have h4 : desired_count_of 100 = 1 := by decide
  have h5 : redis_node_type_of 100 = "cache.t3.micro" := by decide
  have h6 : redis_replica_count_of 100 = 0 := by decide
  have h7 : efs_performance_mode_of 100 = "generalPurpose" := by decide
  have h8 : nat_gateway_count_of 100 = 1 := by decide
  have h9 : enable_global_accelerator_of 100 = false := by decide
  rw [h1, h2, h3, h4, h5, h6, h7, h8, h9]
  unfold res100
  norm_num

/-- Concrete run: capacity 500 yields `res500`. -/
theorem calc_res_500 : calculate_resources 500 = some res500 := by
  have h := calc_res_eval 500 8192 [16384] 16384 30720
    (by decide) (by decide) (by decide)
  rw [h]
  have h1 : pyMin 8192 [16384] = 8192 := by decide
  have h2 : max 16384 (min (requested_memory_mb 500) 30720) = 16384 := by decide
  have h3 : cpu_vcpu_of 500 = 5 := by decide
  have h4 : desired_count_of 500 = 1 := by decide
  have h5 : redis_node_type_of 500 = "cache.t3.micro" := by decide
  have h6 : redis_replica_count_of 500 = 0 := by decide
  have h7 : efs_performance_mode_of 500 = "generalPurpose" := by decide
  have h8 : nat_gateway_count_of 500 = 1 := by decide
  have h9 : enable_global_accelerator_of 500 = false := by decide
  rw [h1, h2, h3, h4, h5, h6, h7, h8, h9]
  unfold res500
  norm_num

/-- Ceiling division is monotone in the dividend. -/
theorem ceilDiv_mono (a b k : ℕ) (h : a ≤ b) : ceilDiv a k ≤ ceilDiv b k :=
  Nat.div_le_div_right (by omega)

/-- The raw CPU unit requirement is monotone in capacity. -/
theorem cpu_units_of_mono (a b : ℕ) (h : a ≤ b) : cpu_units_of a ≤ cpu_units_of b := by
  unfold cpu_units_of cpu_vcpu_of
  exact Nat.mul_le_mul_right _ (max_le_max le_rfl (ceilDiv_mono a b 100 h))

/-- The requested (pre-clamp) memory is monotone in capacity. -/
theorem requested_memory_mb_mono (a b : ℕ) (h : a ≤ b) :
    requested_memory_mb a ≤ requested_memory_mb b := by
  unfold requested_memory_mb requested_memory_gb
  exact Nat.mul_le_mul_right _ (max_le_max le_rfl (ceilDiv_mono a b 50 h))

/-- The desired task count is monotone in capacity. -/
theorem desired_count_of_mono (a b : ℕ) (h : a ≤ b) :
    desired_count_of a ≤ desired_count_of b := by
  unfold desired_count_of
  split_ifs with h1 h2 h2
  · exact le_rfl
  · exact le_trans (by norm_num) (le_max_left 2 _)
  · omega
  · exact max_le_max le_rfl (ceilDiv_mono a b 5000 h)

/-- The NAT gateway count is monotone in capacity. -/
theorem nat_gateway_count_of_mono (a b : ℕ) (h : a ≤ b) :
    nat_gateway_count_of a ≤ nat_gateway_count_of b := by
  unfold nat_gateway_count_of
  split_ifs <;> omega

/-- The Redis replica count is monotone in capacity. -/
theorem redis_replica_count_of_mono (a b : ℕ) (h : a ≤ b) :
    redis_replica_count_of a ≤ redis_replica_count_of b := by
  unfold redis_replica_count_of
  exact max_le_max le_rfl (Nat.sub_le_sub_right (ceilDiv_mono a b 5000 h) 1)

/-- Looking up in an association list of non-negative values with a
non-negative default yields a non-negative result. -/
theorem lookup_getD_nonneg (l : List (String × ℚ)) (k : String) (d : ℚ)
    (hl : ∀ p ∈ l, 0 ≤ p.2) (hd : 0 ≤ d) : 0 ≤ (l.lookup k).getD d := by
  induction l with
  | nil => simpa [List.lookup] using hd
  | cons p tl ih =>
    obtain ⟨a, v⟩ := p
    by_cases hk : (k == a) = true
    · simpa [List.lookup, hk] using hl (a, v) (by simp)
    · rw [Bool.not_eq_true] at hk
      simpa [List.lookup, hk] using ih (fun q hq => hl q (List.mem_cons_of_mem _ hq))

/-- The Redis hourly rate drawn from the pricing table is non-negative. -/
theorem redis_hourly_nonneg (r : Resources) : 0 ≤ redis_hourly r := by
  unfold redis_hourly
  refine lookup_getD_nonneg _ _ _ ?_ (by norm_num)
  intro p hp
  fin_cases hp <;> norm_num

/-- Rounding to two decimals preserves non-negativity. -/
theorem round2_nonneg (q : ℚ) (h : 0 ≤ q) : 0 ≤ round2 q := by
  unfold round2
  have h1 : (0 : ℤ) ≤ round (q * 100) := by
    rw [round_eq]
    exact Int.floor_nonneg.mpr (by linarith)
  have h2 : (0 : ℚ) ≤ ((round (q * 100) : ℤ) : ℚ) := by exact_mod_cast h1
  linarith

/-- The Redis node type selected by the if/elif chain is always one of the six
pricing table keys, and its lookup succeeds. -/
theorem redis_node_type_of_keyed (cap : ℕ) :
    redis_node_type_of cap ∈ REDIS_HOURLY_PRICING.map Prod.fst ∧
    (REDIS_HOURLY_PRICING.lookup (redis_node_type_of cap)).isSome := by
  unfold redis_node_type_of
  split_ifs <;> exact ⟨by decide, by decide⟩

/-- C1: the claim says the sizing/costing pipeline is total over capacities
in [100, 50000] and that the tier-selection `min` never sees an empty list.
What the code actually satisfies: over that domain, `calculate_resources`
succeeds — and the CLI prints a report with exit code 0 — exactly when the
capacity is at most 1600; above 1600 the candidate list is empty and the
`min` raises, so the run crashes with a nonzero exit status. -/
theorem claim_C1 (cap : ℕ) (h1 : 100 ≤ cap) (h2 : cap ≤ 50000) :
    ((calculate_resources cap).isSome ↔ cap ≤ 1600) ∧
    (cpu_candidates cap = [] ↔ 1600 < cap) ∧
    (∀ prog s rest, pythonInt s = some (cap : ℤ) →
      ((exitCode (cli_main (prog :: s :: rest)) = 0 ∧
        printsReport (cli_main (prog :: s :: rest)) = true) ↔ cap ≤ 1600)) := by
  refine ⟨?_, cpu_candidates_nil_iff cap, ?_⟩
  · constructor
    · intro hs
      by_contra hc
      push_neg at hc
      rw [calc_res_none cap hc] at hs
      simp at hs
    · exact calc_res_returns cap
  · intro prog s rest hp
    have hrange : ¬(((cap : ℤ) < 100) ∨ (50000 < (cap : ℤ))) := by
      push_neg
      exact ⟨by exact_mod_cast h1, by exact_mod_cast h2⟩
    have hrange2 : ¬((cap < 100) ∨ (50000 < cap)) := by omega
    by_cases hc : cap ≤ 1600
    · obtain ⟨r, hr⟩ := Option.isSome_iff_exists.mp (calc_res_returns cap hc)
      simp [cli_main, hp, hrange, hrange2, Int.toNat_natCast, hr, exitCode, printsReport, hc]
    · have hn := calc_res_none cap (by omega)
      simp [cli_main, hp, hrange, hrange2, Int.toNat_natCast, hn, exitCode, printsReport, hc]

/-- Witness for C1 at the concrete capacity 1601: in the valid domain, yet
`calculate_resources` fails and the CLI does not exit 0 with a report. -/
theorem claim_C1_witness :
    ((calculate_resources 1601).isSome ↔ (1601 : ℕ) ≤ 1600) ∧
    ((exitCode (cli_main ["calculate-cost.py", "1601"]) = 0 ∧
      printsReport (cli_main ["calculate-cost.py", "1601"]) = true) ↔ (1601 : ℕ) ≤ 1600) := by
  have h := claim_C1 1601 (by norm_num) (by norm_num)
  exact ⟨h.1, h.2.2 "calculate-cost.py" "1601" [] (by decide)⟩

/-- Counterexample to C2 as stated: capacity 1601 lies in [100, 50000] but
`calculate_resources` returns nothing at all (the `ValueError`), so in
particular it does not return the claimed fields. -/
theorem claim_C2_ctrex :
    (100 : ℕ) ≤ 1601 ∧ (1601 : ℕ) ≤ 50000 ∧ calculate_resources 1601 = none :=
  ⟨by norm_num, by norm_num, by decide⟩

/-- C2 (amended to the sub-domain [100, 1600] on which `calculate_resources`
returns): the returned `cpu_vcpu` is `max(1, ceil(capacity/100))`, and
`cpu_units` is a member of `CPU_OPTIONS` and is the smallest member that is at
least `cpu_vcpu * 1024`. -/
theorem claim_C2 (cap : ℕ) (_h1 : 100 ≤ cap) (h2 : cap ≤ 1600) :
    ∃ r, calculate_resources cap = some r ∧ cpuSizingOK cap r := by
  obtain ⟨r, hr⟩ := Option.isSome_iff_exists.mp (calc_res_returns cap h2)
  obtain ⟨hv, hmem, hle, hmin, _⟩ := calc_res_shape cap r hr
  refine ⟨r, hr, hv, hmem, ?_, ?_⟩
  · rw [hv]
    exact hle
  · intro y hy hley
    rw [hv] at hley
    exact hmin y hy hley

/-- Witness for C2 at the concrete capacity 500. -/
theorem claim_C2_witness : ∃ r, calculate_resources 500 = some r ∧ cpuSizingOK 500 r :=
  claim_C2 500 (by norm_num) (by norm_num)

/-- Counterexample to C3 as stated: the claim asserts capacity 2001 gives
`cache.t3.medium`, but `calculate_resources` raises before tier selection. -/
theorem claim_C3_ctrex :
    (100 : ℕ) ≤ 2001 ∧ (2001 : ℕ) ≤ 50000 ∧ calculate_resources 2001 = none :=
  ⟨by norm_num, by norm_num, by decide⟩

/-- C3 (amended): the Redis tier selection expression inside
`calculate_resources` implements the claimed upper-inclusive step function of
capacity, and the `redis_node_type` field of any configuration the function
actually returns agrees with it; the bands above capacity 1600 are never
reached because the CPU sizing raises first. -/
theorem claim_C3 (cap : ℕ) :
    (cap ≤ 500 → redis_node_type_of cap = "cache.t3.micro") ∧
    (500 < cap → cap ≤ 2000 → redis_node_type_of cap = "cache.t3.small") ∧
    (2000 < cap → cap ≤ 5000 → redis_node_type_of cap = "cache.t3.medium") ∧
    (5000 < cap → cap ≤ 10000 → redis_node_type_of cap = "cache.t3.large") ∧
    (10000 < cap → cap ≤ 20000 → redis_node_type_of cap = "cache.r6g.large") ∧
    (20000 < cap → redis_node_type_of cap = "cache.r6g.xlarge") ∧
    (∀ r, calculate_resources cap = some r → r.redis_node_type = redis_node_type_of cap) := by
  refine ⟨?_, ?_, ?_, ?_, ?_, ?_,
    fun r h => ((calc_res_shape cap r h).2.2.2.2.2.2.2.2.2.1)⟩
  all_goals intro h
  all_goals try intro hh
  all_goals unfold redis_node_type_of
  all_goals split_ifs <;> first | rfl | (exfalso; omega)

/-- Witness for C3 at the band boundaries 500, 501 and 2000. -/
theorem claim_C3_witness :
    redis_node_type_of 500 = "cache.t3.micro" ∧
    redis_node_type_of 501 = "cache.t3.small" ∧
    redis_node_type_of 2000 = "cache.t3.small" :=
  ⟨(claim_C3 500).1 (by norm_num),
   (claim_C3 501).2.1 (by norm_num) (by norm_num),
   (claim_C3 2000).2.1 (by norm_num) (by norm_num)⟩

/-- C8: the claim's expected values at capacity 50000.  The individual sizing
rules would indeed produce `desired_count = 10`, `cache.r6g.xlarge`,
9 replicas, 2 NAT gateways and `maxIO` — but `calculate_resources` itself
raises at the CPU discretization step and returns nothing at 50000. -/
theorem claim_C8 :
    calculate_resources 50000 = none ∧
    desired_count_of 50000 = 10 ∧
    redis_node_type_of 50000 = "cache.r6g.xlarge" ∧
    redis_replica_count_of 50000 = 9 ∧
    nat_gateway_count_of 50000 = 2 ∧
    efs_performance_mode_of 50000 = "maxIO" := by
  exact ⟨by decide, by decide, by decide, by decide, by decide, by decide⟩

/-- Counterexample to C4 as stated: capacity 3000 lies in [100, 50000] but
`calculate_resources` raises before the memory computation, so no memory value
is computed or clamped there. -/
theorem claim_C4_ctrex :
    (100 : ℕ) ≤ 3000 ∧ (3000 : ℕ) ≤ 50000 ∧ calculate_resources 3000 = none :=
  ⟨by norm_num, by norm_num, by decide⟩

/-- C4 (amended to configurations `calculate_resources` actually returns,
i.e. capacities in [100, 1600]): the returned `memory_mb` is the requested
`max(2, ceil(capacity/50))` GB times 1024, two-sided-clamped into the
inclusive table range of the selected tier, hence lies inside that closed
interval, and `memory_gb` is `memory_mb / 1024`. -/
theorem claim_C4 (cap : ℕ) (r : Resources) (_h1 : 100 ≤ cap) (_h2 : cap ≤ 50000)
    (h : calculate_resources cap = some r) : memoryClampOK cap r := by
  obtain ⟨_, hmem, _, _, hmb, h1s, h2s, hgb, _⟩ := calc_res_shape cap r h
  obtain ⟨lo, hlo⟩ := Option.isSome_iff_exists.mp h1s
  obtain ⟨hi, hhi⟩ := Option.isSome_iff_exists.mp h2s
  have hlohi : lo ≤ hi := by
    have := (tables_isSome _ hmem).2.2
    simpa [hlo, hhi] using this
  refine ⟨lo, hi, hlo, hhi, ?_, ?_, ?_, hgb⟩
  · rw [hmb, hlo, hhi]
    simp only [Option.getD_some]
    rfl
  · rw [hmb, hlo]
    simp only [Option.getD_some]
    exact le_max_left _ _
  · rw [hmb, hlo, hhi]
    simp only [Option.getD_some]
    exact max_le hlohi (min_le_right _ _)

/-- Witness for C4 at the concrete capacity 100. -/
theorem claim_C4_witness : memoryClampOK 100 res100 :=
  claim_C4 100 res100 (by norm_num) (by norm_num) calc_res_100

/-- Counterexample to C5 as stated: for a = 100 and b = 1601, both in
[100, 50000] with a ≤ b, there is no configuration for b to compare —
`calculate_resources` raises at 1601. -/
theorem claim_C5_ctrex :
    (100 : ℕ) ≤ 1601 ∧ (1601 : ℕ) ≤ 50000 ∧
    (calculate_resources 100).isSome ∧ calculate_resources 1601 = none :=
  ⟨by norm_num, by norm_num, by decide, by decide⟩

/-- C5 (amended to the sub-domain [100, 1600] on which `calculate_resources`
returns): for capacities a ≤ b in that range, `cpu_units`, post-clamp
`memory_mb`, `desired_count`, `nat_gateway_count` and `redis_replica_count`
are each monotonically non-decreasing. -/
theorem claim_C5 (a b : ℕ) (_h1 : 100 ≤ a) (hab : a ≤ b) (h2 : b ≤ 1600) :
    ∃ ra rb, calculate_resources a = some ra ∧ calculate_resources b = some rb ∧
      monotoneFields ra rb := by
  obtain ⟨ra, hra⟩ := Option.isSome_iff_exists.mp (calc_res_returns a (le_trans hab h2))
  obtain ⟨rb, hrb⟩ := Option.isSome_iff_exists.mp (calc_res_returns b h2)
  obtain ⟨_, hamem, hale, hamin, hambr, _, _, _, hadc, _, harc, _, hang, _⟩ :=
    calc_res_shape a ra hra
  obtain ⟨_, hbmem, hble, hbmin, hbmbr, _, _, _, hbdc, _, hbrc, _, hbng, _⟩ :=
    calc_res_shape b rb hrb
  have hcpu : ra.cpu_units ≤ rb.cpu_units :=
    hamin rb.cpu_units hbmem (le_trans (cpu_units_of_mono a b hab) hble)
  have htab := tables_mono ra.cpu_units hamem rb.cpu_units hbmem hcpu
  refine ⟨ra, rb, hra, hrb, hcpu, ?_, ?_, ?_, ?_⟩
  · rw [hambr, hbmbr]
    exact max_le_max htab.1 (min_le_min (requested_memory_mb_mono a b hab) htab.2)
  · rw [hadc, hbdc]
    exact desired_count_of_mono a b hab
  · rw [hang, hbng]
    exact nat_gateway_count_of_mono a b hab
  · rw [harc, hbrc]
    exact redis_replica_count_of_mono a b hab

/-- Witness for C5 at the concrete capacities 100 ≤ 1600. -/
theorem claim_C5_witness :
    ∃ ra rb, calculate_resources 100 = some ra ∧ calculate_resources 1600 = some rb ∧
      monotoneFields ra rb :=
  claim_C5 100 1600 (by norm_num) (by norm_num) (by norm_num)

/-- C6: for every configuration produced from a capacity in the valid domain,
the six unrounded line items are non-negative, each output field is its item
independently rounded to 2 decimals, and the total is the sum of the six
unrounded items rounded to 2 decimals (not the sum of the rounded items). -/
theorem claim_C6 (cap : ℕ) (r : Resources) (_h1 : 100 ≤ cap) (_h2 : cap ≤ 50000)
    (h : calculate_resources cap = some r) : costsOK r := by
  obtain ⟨_, _, _, _, _, _, _, hgb, _⟩ := calc_res_shape cap r h
  have hecs : 0 ≤ ecs_cost r := by
    rw [ecs_cost, hgb]
    unfold ECS_CPU_PRICE_PER_VCPU_HOUR ECS_MEMORY_PRICE_PER_GB_HOUR HOURS_PER_MONTH
    positivity
  have hredis : 0 ≤ redis_cost r := by
    unfold redis_cost
    refine mul_nonneg (mul_nonneg (redis_hourly_nonneg r) ?_) ?_
    · unfold HOURS_PER_MONTH
      norm_num
    · positivity
  have hefs : 0 ≤ efs_cost := by
    unfold efs_cost EFS_BASELINE_STORAGE_GB EFS_STORAGE_PRICE_PER_GB_MONTH
    norm_num
  have hnat : 0 ≤ nat_cost r := by
    unfold nat_cost NAT_GATEWAY_PRICE_PER_MONTH
    positivity
  have halb : 0 ≤ alb_cost := by
    unfold alb_cost ALB_BASE_PRICE_PER_MONTH
    norm_num
  have hacc : 0 ≤ accelerator_cost r := by
    unfold accelerator_cost GLOBAL_ACCELERATOR_PRICE_PER_MONTH
    split_ifs <;> norm_num
  exact ⟨⟨hecs, hredis, hefs, hnat, halb, hacc⟩,
    ⟨rfl, rfl, rfl, rfl, rfl, rfl, rfl⟩,
    round2_nonneg _ hecs, round2_nonneg _ hredis, round2_nonneg _ hefs,
    round2_nonneg _ hnat, round2_nonneg _ halb, round2_nonneg _ hacc⟩

/-- Witness for C6 at the concrete capacity 100. -/
theorem claim_C6_witness : costsOK res100 :=
  claim_C6 100 res100 (by norm_num) (by norm_num) calc_res_100

/-- C7: for every configuration produced from a capacity in the valid domain,
the unrounded ECS cost is
`(cpu_vcpu * 0.04048 + memory_gb * 0.004445) * 730 * desired_count`, where
`cpu_vcpu` is the logical pre-discretization vCPU count and `memory_gb` the
post-clamp memory; the discretized `cpu_units` does not enter the formula. -/
theorem claim_C7 (cap : ℕ) (r : Resources) (_h1 : 100 ≤ cap) (_h2 : cap ≤ 50000)
    (h : calculate_resources cap = some r) :
    ecs_cost r
      = ((r.cpu_vcpu : ℚ) * 0.04048 + r.memory_gb * 0.004445) * 730 * (r.desired_count : ℚ) ∧
    (calculate_costs r).ecs
      = round2 (((r.cpu_vcpu : ℚ) * 0.04048 + r.memory_gb * 0.004445) * 730 * (r.desired_count : ℚ)) ∧
    r.cpu_vcpu = max 1 (ceilDiv cap 100) ∧
    r.memory_gb = (r.memory_mb : ℚ) / 1024 ∧
    (∀ u : ℕ, ecs_cost { r with cpu_units := u } = ecs_cost r) := by
  obtain ⟨hv, _, _, _, _, _, _, hgb, _⟩ := calc_res_shape cap r h
  exact ⟨rfl, rfl, hv, hgb, fun u => rfl⟩

/-- Witness for C7 at capacity 500 and its configuration. -/
theorem claim_C7_witness :
    ecs_cost res500
      = ((res500.cpu_vcpu : ℚ) * 0.04048 + res500.memory_gb * 0.004445) * 730
          * (res500.desired_count : ℚ) ∧
    (calculate_costs res500).ecs
      = round2 (((res500.cpu_vcpu : ℚ) * 0.04048 + res500.memory_gb * 0.004445) * 730
          * (res500.desired_count : ℚ)) ∧
    res500.cpu_vcpu = max 1 (ceilDiv 500 100) ∧
    res500.memory_gb = (res500.memory_mb : ℚ) / 1024 ∧
    (∀ u : ℕ, ecs_cost { res500 with cpu_units := u } = ecs_cost res500) :=
  claim_C7 500 res500 (by norm_num) (by norm_num) calc_res_500

/-- C9: each invalid CLI input class — missing positional argument,
non-integer argument, integer outside [100, 50000] — yields the corresponding
error outcome, whose exit code is 1 and which prints no report or JSON
document; in the model these outcomes are produced before `calculate_resources`
is consulted. -/
theorem claim_C9 :
    cli_main [] = CLIOutcome.usage_error ∧
    (∀ prog, cli_main [prog] = CLIOutcome.usage_error) ∧
    (∀ prog s rest, pythonInt s = none → cli_main (prog :: s :: rest) = CLIOutcome.invalid_error s) ∧
    (∀ prog s rest n, pythonInt s = some n → (n < 100 ∨ 50000 < n) →
      cli_main (prog :: s :: rest) = CLIOutcome.range_error n) ∧
    (exitCode CLIOutcome.usage_error = 1 ∧ printsReport CLIOutcome.usage_error = false) ∧
    (∀ s, exitCode (CLIOutcome.invalid_error s) = 1 ∧ printsReport (CLIOutcome.invalid_error s) = false) ∧
    (∀ n, exitCode (CLIOutcome.range_error n) = 1 ∧ printsReport (CLIOutcome.range_error n) = false) := by
  refine ⟨rfl, fun prog => rfl, ?_, ?_, ⟨rfl, rfl⟩, fun s => ⟨rfl, rfl⟩, fun n => ⟨rfl, rfl⟩⟩
  · intro prog s rest hp
    simp [cli_main, hp]
  · intro prog s rest n hp hn
    simp [cli_main, hp, hn]

/-- Witness for C9 on the spec's concrete invalid inputs. -/
theorem claim_C9_witness :
    cli_main ["calculate-cost.py"] = CLIOutcome.usage_error ∧
    cli_main ["calculate-cost.py", "abc"] = CLIOutcome.invalid_error ("abc") ∧
    cli_main ["calculate-cost.py", "50"] = CLIOutcome.range_error 50 ∧
    cli_main ["calculate-cost.py", "50001"] = CLIOutcome.range_error 50001 ∧
    exitCode (CLIOutcome.range_error 50) = 1 :=
  ⟨claim_C9.2.1 "calculate-cost.py",
   claim_C9.2.2.1 "calculate-cost.py" "abc" [] (by decide),
   claim_C9.2.2.2.1 "calculate-cost.py" "50" [] 50 (by decide) (by norm_num),
   claim_C9.2.2.2.1 "calculate-cost.py" "50001" [] 50001 (by decide) (by norm_num),
   (claim_C9.2.2.2.2.2.2 50).1⟩

/-- C10: every configuration `calculate_resources` returns carries a
`redis_node_type` that is a key of `REDIS_HOURLY_PRICING`, so the `.get`
default 0.017 in `calculate_costs` is never used for such configurations. -/
theorem claim_C10 (cap : ℕ) (r : Resources) (h : calculate_resources cap = some r) :
    r.redis_node_type ∈ REDIS_HOURLY_PRICING.map Prod.fst ∧
    ∃ p, REDIS_HOURLY_PRICING.lookup r.redis_node_type = some p ∧ redis_hourly r = p := by
  have ht := (calc_res_shape cap r h).2.2.2.2.2.2.2.2.2.1
  have hk := redis_node_type_of_keyed cap
  constructor
  · rw [ht]
    exact hk.1
  · obtain ⟨p, hp⟩ := Option.isSome_iff_exists.mp hk.2
    refine ⟨p, ?_, ?_⟩
    · rw [ht]
      exact hp
    · unfold redis_hourly
      rw [ht, hp]
      rfl

/-- Witness for C10 at the concrete capacity 100. -/
theorem claim_C10_witness :
    res100.redis_node_type ∈ REDIS_HOURLY_PRICING.map Prod.fst ∧
    ∃ p, REDIS_HOURLY_PRICING.lookup res100.redis_node_type = some p ∧ redis_hourly res100 = p :=
  claim_C10 100 res100 calc_res_100
